import Mathlib

/-!
# Verification of the bike-share dashboard data pipeline

Shallow embedding of the data pipeline in `src/dashboard.py`:
feature derivation (`load_and_prep_data`), the sidebar filter engine
(`filtered_df`), the executive-summary KPIs (`total_rides`, `avg_rides`,
`peak_hour`), and the aggregate views feeding the charts (correlation
matrix columns, day-by-hour heatmap pivot).

Tabular data is modelled as `List` of records; pandas `NaN` results of
`.map` on unmapped keys and of aggregates over empty data are modelled
as `Option.none`.  `Series.idxmax` on an empty series raises
`ValueError` in pandas; that error outcome is likewise modelled as
`Option.none` of the corresponding function.
-/

/-- A raw input row of `train.csv`.  The single `datetime` column is
modelled by its parsed components (calendar-date ordinal, year, month
name, day-of-week name, hour), standing for the pandas accessors
`dt.year`, `dt.month_name()`, `dt.day_name()`, `dt.hour` used in
`load_and_prep_data`. -/
structure RentalRecord where
  dtDate : Nat
  dtYear : Int
  dtMonthName : String
  dtDayName : String
  dtHour : Nat
  season : Int
  weather : Int
  temp : Rat
  atemp : Rat
  humidity : Rat
  windspeed : Rat
  workingday : Int
  holiday : Int
  casual : Int
  registered : Int
  count : Int
deriving DecidableEq

/-- A row of the enriched frame produced by `load_and_prep_data`: the raw
columns plus the derived columns `year`, `month`, `day`, `hour`,
`period`, `season_label`, `weather_label`, `working_day_str`.  The label
columns are `Option String` because pandas `.map` over a dict yields
`NaN` on keys absent from the dict. -/
structure EnrichedRecord where
  dtDate : Nat
  season : Int
  weather : Int
  temp : Rat
  atemp : Rat
  humidity : Rat
  windspeed : Rat
  workingday : Int
  holiday : Int
  casual : Int
  registered : Int
  count : Int
  year : Int
  month : String
  day : String
  hour : Nat
  period : String
  season_label : Option String
  weather_label : Option String
  working_day_str : Option String
deriving DecidableEq

/-- `get_period` from `load_and_prep_data` (dashboard.py lines 39-47). -/
def get_period (h : Nat) : String :=
  if 5 ≤ h ∧ h < 10 then "🌅 Morning Rush"
  else if 10 ≤ h ∧ h < 15 then "☀️ Mid-Day"
  else if 15 ≤ h ∧ h < 20 then "🌇 Evening Rush"
  else "🌙 Night"

/-- `season_map` (dashboard.py line 51) applied through `Series.map`:
keys outside the dict yield `NaN`, modelled as `none`. -/
def season_map (s : Int) : Option String :=
  if s = 1 then some "Spring"
  else if s = 2 then some "Summer"
  else if s = 3 then some "Fall"
  else if s = 4 then some "Winter"
  else none

/-- `weather_map` (dashboard.py lines 52-53) applied through
`Series.map`; unmapped keys yield `NaN`, modelled as `none`. -/
def weather_map (w : Int) : Option String :=
  if w = 1 then some "Clear/Nice"
  else if w = 2 then some "Cloudy/Mist"
  else if w = 3 then some "Rain/Snow"
  else if w = 4 then some "Extreme Weather"
  else none

/-- The `workingday` map (dashboard.py lines 56-57). -/
def working_day_map (w : Int) : Option String :=
  if w = 0 then some "Weekend/Holiday"
  else if w = 1 then some "Work Day"
  else none

/-- `month_order` (dashboard.py lines 60-61): the fixed category order of
the `month` column. -/
def month_order : List String :=
  ["January", "February", "March", "April", "May", "June",
   "July", "August", "September", "October", "November", "December"]

/-- `day_order` (dashboard.py lines 62-63): the fixed category order of
the `day` column. -/
def day_order : List String :=
  ["Monday", "Tuesday", "Wednesday", "Thursday", "Friday", "Saturday", "Sunday"]

/-- The per-row feature engineering of `load_and_prep_data`
(dashboard.py lines 33-57). -/
def enrich (r : RentalRecord) : EnrichedRecord :=
  { dtDate := r.dtDate
    season := r.season
    weather := r.weather
    temp := r.temp
    atemp := r.atemp
    humidity := r.humidity
    windspeed := r.windspeed
    workingday := r.workingday
    holiday := r.holiday
    casual := r.casual
    registered := r.registered
    count := r.count
    year := r.dtYear
    month := r.dtMonthName
    day := r.dtDayName
    hour := r.dtHour
    period := get_period r.dtHour
    season_label := season_map r.season
    weather_label := weather_map r.weather
    working_day_str := working_day_map r.workingday }

/-- `load_and_prep_data` (dashboard.py lines 28-68) as a pure transform
on the loaded rows: one enriched row per raw row, order preserved. -/
def load_and_prep_data (rows : List RentalRecord) : List EnrichedRecord :=
  rows.map enrich

/-- The year predicate `df['year'].isin(selected_year)`
(dashboard.py line 84). -/
def year_pred (sy : List Int) (r : EnrichedRecord) : Bool :=
  sy.contains r.year

/-- The season predicate `df['season_label'].isin(selected_season)`
(dashboard.py line 85).  A `NaN` label (`none`) is never a member of the
selection list, matching pandas `isin`. -/
def season_pred (ss : List String) (r : EnrichedRecord) : Bool :=
  match r.season_label with
  | some s => ss.contains s
  | none => false

/-- The filter engine `filtered_df` (dashboard.py lines 83-86): boolean
AND of the year predicate and the season predicate. -/
def filtered_df (df : List EnrichedRecord) (sy : List Int) (ss : List String) :
    List EnrichedRecord :=
  df.filter (fun r => year_pred sy r && season_pred ss r)

/-- `total_rides = filtered_df['count'].sum()` (dashboard.py line 93);
pandas sum of an empty series is 0. -/
def total_rides (df : List EnrichedRecord) : Int :=
  (df.map (·.count)).sum

/-- `avg_rides = filtered_df['count'].mean()` (dashboard.py line 94);
pandas mean of an empty series is `NaN`, modelled as `none`. -/
def avg_rides (df : List EnrichedRecord) : Option Rat :=
  if df = [] then none
  else some ((df.map (fun r => (r.count : Rat))).sum / (df.length : Rat))

/-- The summed count of the group-by-hour group for hour `h`, i.e. one
entry of `filtered_df.groupby('hour')['count'].sum()`. -/
def hour_sum (df : List EnrichedRecord) (h : Nat) : Int :=
  ((df.filter (fun r => r.hour = h)).map (·.count)).sum

/-- The index of `filtered_df.groupby('hour')['count'].sum()`: the
distinct hour values sorted ascending (pandas `groupby` with the default
`sort=True`). -/
def sortedHours (df : List EnrichedRecord) : List Nat :=
  ((df.map (·.hour)).dedup).insertionSort (· ≤ ·)

/-- The first maximiser of `f` among `h :: t`: `h` is kept unless the
rest of the list attains a strictly larger value. -/
def idxmaxNe (f : Nat → Int) (h : Nat) : List Nat → Nat
  | [] => h
  | x :: t => if f h < f (idxmaxNe f x t) then idxmaxNe f x t else h

/-- `Series.idxmax` over an explicit index list: the first index
attaining the maximal value, `none` on an empty index (pandas raises
`ValueError` there, modelled as `none`). -/
def idxmax (f : Nat → Int) : List Nat → Option Nat
  | [] => none
  | h :: t => some (idxmaxNe f h t)

/-- `peak_hour = filtered_df.groupby('hour')['count'].sum().idxmax()`
(dashboard.py line 95).  `none` models the `ValueError` pandas raises
when the filtered frame is empty. -/
def peak_hour (df : List EnrichedRecord) : Option Nat :=
  idxmax (hour_sum df) (sortedHours df)

/-- `core_user` (dashboard.py lines 96-97). -/
def core_user (df : List EnrichedRecord) : String :=
  if (df.map (·.casual)).sum < (df.map (·.registered)).sum then "Registered"
  else "Casual"

/-- `corr_cols` column selection (dashboard.py lines 184-185): the exact
list of columns fed to `.corr()` for the correlation heatmap. -/
def corr_cols : List String :=
  ["temp", "humidity", "windspeed", "count", "casual", "registered"]

/-- Numeric column access by pandas column name, for the columns that
can appear in a correlation computation. -/
def colVal (c : String) (r : EnrichedRecord) : Rat :=
  if c = "temp" then r.temp
  else if c = "atemp" then r.atemp
  else if c = "humidity" then r.humidity
  else if c = "windspeed" then r.windspeed
  else if c = "casual" then (r.casual : Rat)
  else if c = "registered" then (r.registered : Rat)
  else if c = "count" then (r.count : Rat)
  else 0

/-- The series of values of column `c` over the rows of `df`. -/
def colSeries (df : List EnrichedRecord) (c : String) : List Rat :=
  df.map (colVal c)

/-- Arithmetic mean of a list of rationals. -/
def meanQ (xs : List Rat) : Rat :=
  xs.sum / (xs.length : Rat)

/-- Deviations from the mean. -/
def devs (xs : List Rat) : List Rat :=
  xs.map (fun x => x - meanQ xs)

/-- The centred cross-product sum `Σ (x - x̄)(y - ȳ)`, the shared
numerator building block of the Pearson correlation coefficient
computed by `DataFrame.corr()`. -/
def sxy (xs ys : List Rat) : Rat :=
  (List.zipWith (· * ·) (devs xs) (devs ys)).sum

/-- Exact rational representation of one Pearson correlation entry
`r = sxy / sqrt (sxx * syy)`: the pair `(sxy, sxx * syy)` of its
numerator and the square of its denominator.  This avoids irrational
square roots while determining the real entry uniquely (when the
denominator is nonzero). -/
def corrRep (xs ys : List Rat) : Rat × Rat :=
  (sxy xs ys, sxy xs xs * sxy ys ys)

/-- The correlation-matrix entry of `filtered_df[corr_cols].corr()` for
the column pair `(c1, c2)`, in the representation of `corrRep`. -/
def corrEntry (df : List EnrichedRecord) (c1 c2 : String) : Rat × Rat :=
  corrRep (colSeries df c1) (colSeries df c2)

/-- The real number represented by `e : Rat × Rat` (namely
`e.1 / sqrt e.2`) equals `1` exactly when the numerator is positive and
its square equals the squared denominator. -/
def reprOne (e : Rat × Rat) : Prop :=
  0 < e.1 ∧ e.1 ^ 2 = e.2

/-- The rows of `heatmap_data` restricted to day-name `d` and hour `h`:
one group of `filtered_df.groupby(['day', 'hour'])` (dashboard.py
lines 196-197). -/
def cellRows (df : List EnrichedRecord) (d : String) (h : Nat) :
    List EnrichedRecord :=
  df.filter (fun r => d = r.day && r.hour = h)

/-- One cell of `heatmap_pivot` (dashboard.py lines 198-199): the mean
count of the `(day, hour)` group, `NaN` (modelled `none`) when the group
has no rows.  Because `day` is categorical (`observed=False` expansion)
every day-of-week row exists provided some hour was observed, and empty
day×hour combinations carry `NaN`. -/
def heatmap_cell (df : List EnrichedRecord) (d : String) (h : Nat) :
    Option Rat :=
  if cellRows df d h = [] then none
  else some (meanQ ((cellRows df d h).map (fun r => (r.count : Rat))))

/-- The column labels of `heatmap_pivot`: the distinct hour values
observed in the filtered frame, ascending (`hour` is not categorical, so
pandas produces a column only for observed hours). -/
def heatmap_cols (df : List EnrichedRecord) : List Nat :=
  sortedHours df

/-- The row labels of `heatmap_pivot`: all seven day categories of the
categorical `day` column (pandas `groupby` with `observed=False` expands
a categorical grouper to all its categories), except that when the
filtered frame has no rows at all the grouped frame, hence the pivot,
is empty. -/
def heatmap_rows (df : List EnrichedRecord) : List String :=
  if sortedHours df = [] then [] else day_order

/-- Modelled from the spec: the "mean of temperature" KPI named in the
spec's KPI list — stated from the spec's words for refinement
comparison against the code's `avg_rides`. -/
def spec_mean_temp (df : List EnrichedRecord) : Option Rat :=
  if df = [] then none else some (meanQ (df.map (·.temp)))

/-- Modelled from the spec: the "mean of humidity" KPI named in the
spec's KPI list — stated from the spec's words for refinement
comparison against the code's `avg_rides`. -/
def spec_mean_humidity (df : List EnrichedRecord) : Option Rat :=
  if df = [] then none else some (meanQ (df.map (·.humidity)))

/-- A concrete raw row used by the closed example theorems. -/
def rawRow (h : Nat) (cnt : Int) (temp humid : Rat) : RentalRecord :=
  { dtDate := 40183
    dtYear := 2011
    dtMonthName := "January"
    dtDayName := "Saturday"
    dtHour := h
    season := 1
    weather := 1
    temp := temp
    atemp := temp
    humidity := humid
    windspeed := 0
    workingday := 0
    holiday := 0
    casual := 3
    registered := cnt - 3
    count := cnt }

/-- A concrete enriched table with a single row at hour 8. -/
def exDf1 : List EnrichedRecord :=
  load_and_prep_data [rawRow 8 50 20 5]

/-- A concrete enriched table with two rows (hours 8 and 9), counts 10,
temperatures 20, humidities 5. -/
def exDf2 : List EnrichedRecord :=
  load_and_prep_data [rawRow 8 10 20 5, rawRow 9 10 20 5]

/-- A concrete enriched table whose hour sums tie between hours 1 and 3. -/
def exDfTie : List EnrichedRecord :=
  load_and_prep_data [rawRow 3 5 20 5, rawRow 1 5 21 6, rawRow 2 4 22 7]

/-- C5: For every hour h in 0..23, the period-of-day derivation assigns
Morning Rush iff 5 <= h < 10, Mid-Day iff 10 <= h < 15, Evening Rush iff
15 <= h < 20, and Night otherwise (so hour 10 is Mid-Day and hours 4,
20, 23 are Night).  The code's labels carry fixed emoji prefixes. -/
theorem get_period_buckets :
    ∀ h : Nat, h < 24 →
      (get_period h = "🌅 Morning Rush" ↔ 5 ≤ h ∧ h < 10) ∧
      (get_period h = "☀️ Mid-Day" ↔ 10 ≤ h ∧ h < 15) ∧
      (get_period h = "🌇 Evening Rush" ↔ 15 ≤ h ∧ h < 20) ∧
      (get_period h = "🌙 Night" ↔ h < 5 ∨ 20 ≤ h) := by decide

/-- Witness for `get_period_buckets` at the boundary hour 10. -/
theorem get_period_buckets_witness :
    (get_period 10 = "🌅 Morning Rush" ↔ 5 ≤ 10 ∧ 10 < 10) ∧
    (get_period 10 = "☀️ Mid-Day" ↔ 10 ≤ 10 ∧ 10 < 15) ∧
    (get_period 10 = "🌇 Evening Rush" ↔ 15 ≤ 10 ∧ 10 < 20) ∧
    (get_period 10 = "🌙 Night" ↔ 10 < 5 ∨ 20 ≤ 10) :=
  get_period_buckets 10 (by decide)

/-- C6: The season mapping sends 1,2,3,4 to Spring, Summer, Fall, Winter
and the weather mapping sends 1,2,3,4 to four severity labels; both are
total deterministic functions on {1,2,3,4} with exactly four distinct
labels each (`List.Nodup` states distinctness). -/
theorem season_weather_maps_total :
    season_map 1 = some "Spring" ∧ season_map 2 = some "Summer" ∧
    season_map 3 = some "Fall" ∧ season_map 4 = some "Winter" ∧
    weather_map 1 = some "Clear/Nice" ∧ weather_map 2 = some "Cloudy/Mist" ∧
    weather_map 3 = some "Rain/Snow" ∧ weather_map 4 = some "Extreme Weather" ∧
    (["Spring", "Summer", "Fall", "Winter"] : List String).Nodup ∧
    (["Clear/Nice", "Cloudy/Mist", "Rain/Snow", "Extreme Weather"] : List String).Nodup := by
  decide

/-- C7: an empty accepted-set for the year predicate or for the season
predicate makes the filtered subset empty; an empty selection is never
treated as accept-all. -/
theorem empty_selection_excludes_all :
    ∀ (df : List EnrichedRecord) (sy : List Int) (ss : List String),
      filtered_df df [] ss = [] ∧ filtered_df df sy [] = [] := by
  intro df sy ss
  constructor
  · refine List.filter_eq_nil_iff.mpr ?_
    intro r _
    simp [year_pred]
  · refine List.filter_eq_nil_iff.mpr ?_
    intro r _
    cases hs : r.season_label <;> simp [season_pred, hs]

/-- C8: the filtered subset is the records accepted by both active
predicates (logical AND), and applying the two predicates one at a time,
in either order, yields the identical subset. -/
theorem filter_order_independent :
    ∀ (df : List EnrichedRecord) (sy : List Int) (ss : List String),
      filtered_df df sy ss =
        List.filter (fun r => season_pred ss r) (List.filter (fun r => year_pred sy r) df) ∧
      filtered_df df sy ss =
        List.filter (fun r => year_pred sy r) (List.filter (fun r => season_pred ss r) df) ∧
      ∀ r, r ∈ filtered_df df sy ss ↔
        r ∈ df ∧ year_pred sy r = true ∧ season_pred ss r = true := by
  intro df sy ss
  refine ⟨?_, ?_, ?_⟩
  · rw [List.filter_filter]
    exact List.filter_congr fun r _ => by rw [Bool.and_comm]
  · rw [List.filter_filter]
    rfl
  · intro r
    simp [filtered_df, List.mem_filter, and_assoc]

/-- C9: an out-of-range season or weather ordinal is enriched to a
null/missing label (pandas `.map` yields `NaN` off the dict) rather
than raising, uniformly for both mapping tables. -/
theorem unmapped_ordinals_null :
    ∀ r : RentalRecord,
      (r.season ∉ ([1, 2, 3, 4] : List Int) → (enrich r).season_label = none) ∧
      (r.weather ∉ ([1, 2, 3, 4] : List Int) → (enrich r).weather_label = none) := by
  intro r
  constructor
  · intro h
    simp only [List.mem_cons, List.not_mem_nil, or_false, not_or] at h
    obtain ⟨h1, h2, h3, h4⟩ := h
    simp [enrich, season_map, h1, h2, h3, h4]
  · intro h
    simp only [List.mem_cons, List.not_mem_nil, or_false, not_or] at h
    obtain ⟨h1, h2, h3, h4⟩ := h
    simp [enrich, weather_map, h1, h2, h3, h4]

/-- A raw row with out-of-range season and weather ordinals. -/
def exBadRaw : RentalRecord :=
  { rawRow 8 10 20 5 with season := 7, weather := 0 }

/-- Witness for `unmapped_ordinals_null` at a concrete out-of-range row. -/
theorem unmapped_ordinals_null_witness :
    (enrich exBadRaw).season_label = none ∧ (enrich exBadRaw).weather_label = none :=
  ⟨(unmapped_ordinals_null exBadRaw).1 (by decide),
   (unmapped_ordinals_null exBadRaw).2 (by decide)⟩

/-- C10: two enriched records that agree on `year` and `season_label`
are treated identically by every filter selection — membership in the
filtered subset does not depend on any other field. -/
theorem filter_noninterference :
    ∀ (df : List EnrichedRecord) (sy : List Int) (ss : List String)
      (r₁ r₂ : EnrichedRecord),
      r₁ ∈ df → r₂ ∈ df → r₁.year = r₂.year → r₁.season_label = r₂.season_label →
      (r₁ ∈ filtered_df df sy ss ↔ r₂ ∈ filtered_df df sy ss) := by
  intro df sy ss r₁ r₂ h1 h2 hy hs
  simp only [filtered_df, List.mem_filter, year_pred, season_pred, hy, hs, h1, h2,
    true_and]

/-- Two enriched records agreeing on year and season label but differing
in hour, weather, temperature and counts. -/
def exPairDf : List EnrichedRecord :=
  load_and_prep_data [rawRow 8 50 20 5, { rawRow 17 30 11 9 with weather := 3 }]

/-- Witness for `filter_noninterference` on a concrete pair. -/
theorem filter_noninterference_witness :
    ((exPairDf.get ⟨0, by decide⟩) ∈ filtered_df exPairDf [2011] ["Spring"] ↔
      (exPairDf.get ⟨1, by decide⟩) ∈ filtered_df exPairDf [2011] ["Spring"]) :=
  filter_noninterference exPairDf [2011] ["Spring"] _ _
    (by decide) (by decide) (by decide) (by decide)

/-- Over an ascending index `h :: t`, `idxmaxNe` returns an index
attaining the maximal value of `f`, and the smallest such index (pandas
`idxmax` returns the first maximiser; group-by keys are sorted
ascending). -/
theorem idxmaxNe_spec (f : Nat → Int) :
    ∀ (t : List Nat) (h : Nat), (h :: t).Sorted (· ≤ ·) →
      idxmaxNe f h t ∈ h :: t ∧
      ∀ x ∈ h :: t, f x ≤ f (idxmaxNe f h t) ∧
        (f x = f (idxmaxNe f h t) → idxmaxNe f h t ≤ x) := by
  intro t
  induction t with
  | nil =>
    intro h _
    refine ⟨List.mem_cons_self h [], ?_⟩
    intro x hx
    rcases List.mem_cons.mp hx with hxh | hxnil
    · subst hxh; exact ⟨le_refl _, fun _ => le_refl _⟩
    · exact absurd hxnil (List.not_mem_nil x)
  | cons y t ih =>
    intro h hsort
    have hhead : ∀ z ∈ y :: t, h ≤ z := (List.sorted_cons.mp hsort).1
    have htail : (y :: t).Sorted (· ≤ ·) := (List.sorted_cons.mp hsort).2
    have ihy := ih y htail
    by_cases hlt : f h < f (idxmaxNe f y t)
    · have hred : idxmaxNe f h (y :: t) = idxmaxNe f y t := by
        simp only [idxmaxNe, if_pos hlt]
      rw [hred]
      refine ⟨List.mem_cons_of_mem h ihy.1, ?_⟩
      intro x hx
      rcases List.mem_cons.mp hx with hxh | hxt
      · subst hxh
        exact ⟨le_of_lt hlt, fun heq => absurd heq (ne_of_lt hlt)⟩
      · exact ihy.2 x hxt
    · have hred : idxmaxNe f h (y :: t) = h := by
        simp only [idxmaxNe, if_neg hlt]
      rw [hred]
      have hch : f (idxmaxNe f y t) ≤ f h := le_of_not_lt hlt
      refine ⟨List.mem_cons_self h (y :: t), ?_⟩
      intro x hx
      rcases List.mem_cons.mp hx with hxh | hxt
      · subst hxh; exact ⟨le_refl _, fun _ => le_refl _⟩
      · exact ⟨le_trans (ihy.2 x hxt).1 hch, fun _ => hhead x hxt⟩

/-- The sorted group-by index is exactly the set of observed hours. -/
theorem mem_sortedHours (df : List EnrichedRecord) (h : Nat) :
    h ∈ sortedHours df ↔ ∃ r ∈ df, r.hour = h := by
  unfold sortedHours
  rw [List.mem_insertionSort, List.mem_dedup, List.mem_map]

/-- The group-by-hour index is ascending. -/
theorem sortedHours_sorted (df : List EnrichedRecord) :
    (sortedHours df).Sorted (· ≤ ·) :=
  List.sorted_insertionSort _ _

/-- C2 (amended): the composite KPIs over a filtered subset are the sum
of total count, the mean of total count (not of temperature or
humidity), and the hour whose summed count is largest, where ties are
resolved to the smallest hour (pandas sorts group keys ascending and
`idxmax` returns the first maximiser). -/
theorem kpis_amended :
    ∀ df : List EnrichedRecord,
      total_rides df = (df.map (·.count)).sum ∧
      (df ≠ [] → avg_rides df =
        some ((df.map (fun r => (r.count : Rat))).sum / (df.length : Rat))) ∧
      (∀ h, peak_hour df = some h →
        (∃ r ∈ df, r.hour = h) ∧
        ∀ h₂, (∃ r ∈ df, r.hour = h₂) →
          hour_sum df h₂ ≤ hour_sum df h ∧
          (hour_sum df h₂ = hour_sum df h → h ≤ h₂)) := by
  intro df
  refine ⟨rfl, ?_, ?_⟩
  · intro hne
    unfold avg_rides
    rw [if_neg hne]
  · intro h hp
    unfold peak_hour at hp
    rcases hcase : sortedHours df with _ | ⟨x, t⟩
    · rw [hcase] at hp
      simp [idxmax] at hp
    · rw [hcase] at hp
      simp only [idxmax, Option.some.injEq] at hp
      have hsorted : (x :: t).Sorted (· ≤ ·) := by
        rw [← hcase]; exact sortedHours_sorted df
      have hspec := idxmaxNe_spec (hour_sum df) t x hsorted
      subst hp
      refine ⟨(mem_sortedHours df _).mp (by rw [hcase]; exact hspec.1), ?_⟩
      intro h₂ hh₂
      have hmem : h₂ ∈ x :: t := by
        rw [← hcase]; exact (mem_sortedHours df h₂).mpr hh₂
      exact hspec.2 h₂ hmem

/-- Witness for `kpis_amended` on a concrete table whose hour sums tie
between hours 1 and 3: the peak hour is 1, the smallest maximiser. -/
theorem kpis_amended_witness :
    avg_rides exDfTie =
      some ((exDfTie.map (fun r => (r.count : Rat))).sum / (exDfTie.length : Rat)) ∧
    (∃ r ∈ exDfTie, r.hour = 1) ∧
    hour_sum exDfTie 3 ≤ hour_sum exDfTie 1 :=
  ⟨(kpis_amended exDfTie).2.1 (by decide),
   ((kpis_amended exDfTie).2.2 1 (by decide)).1,
   (((kpis_amended exDfTie).2.2 1 (by decide)).2 3 (by decide)).1⟩

/-- C2 counterexample: on a concrete nonempty filtered subset the code's
mean KPI (`avg_rides`, the mean of `count`) differs from both the mean
of temperature and the mean of humidity named by the claim — the
dashboard computes no temperature or humidity mean KPI. -/
theorem kpi_means_counterexample :
    filtered_df exDf2 [2011] ["Spring"] ≠ [] ∧
    avg_rides (filtered_df exDf2 [2011] ["Spring"]) ≠
      spec_mean_temp (filtered_df exDf2 [2011] ["Spring"]) ∧
    avg_rides (filtered_df exDf2 [2011] ["Spring"]) ≠
      spec_mean_humidity (filtered_df exDf2 [2011] ["Spring"]) := by
  have hf : filtered_df exDf2 [2011] ["Spring"] = exDf2 := by decide
  have havg : avg_rides exDf2 = some 10 := by
    unfold avg_rides
    rw [if_neg (by decide)]
    norm_num [exDf2, load_and_prep_data, enrich, rawRow]
  have htemp : spec_mean_temp exDf2 = some 20 := by
    unfold spec_mean_temp
    rw [if_neg (by decide)]
    norm_num [exDf2, load_and_prep_data, enrich, rawRow, meanQ]
  have hhum : spec_mean_humidity exDf2 = some 5 := by
    unfold spec_mean_humidity
    rw [if_neg (by decide)]
    norm_num [exDf2, load_and_prep_data, enrich, rawRow, meanQ]
  rw [hf, havg, htemp, hhum]
  refine ⟨by decide, ?_, ?_⟩ <;> norm_num

/-- C1 (amended): on an empty filtered subset the sum KPI is 0 and the
mean KPI is NaN (`none`), but the peak-hour KPI does not degrade to a
default: `idxmax` of the empty group-by raises, modelled as `none`. -/
theorem empty_kpis_amended :
    ∀ (df : List EnrichedRecord) (sy : List Int) (ss : List String),
      filtered_df df sy ss = [] →
      total_rides (filtered_df df sy ss) = 0 ∧
      avg_rides (filtered_df df sy ss) = none ∧
      peak_hour (filtered_df df sy ss) = none := by
  intro df sy ss h
  rw [h]
  exact ⟨rfl, rfl, rfl⟩

/-- Witness for `empty_kpis_amended` with a concrete table and an empty
year selection. -/
theorem empty_kpis_amended_witness :
    total_rides (filtered_df exDf1 [] ["Spring"]) = 0 ∧
    avg_rides (filtered_df exDf1 [] ["Spring"]) = none ∧
    peak_hour (filtered_df exDf1 [] ["Spring"]) = none :=
  empty_kpis_amended exDf1 [] ["Spring"] (by decide)

/-- C1 counterexample: at a concrete table with empty selections the
filtered subset is empty and the peak-hour computation yields the error
outcome (`none`, modelling the `ValueError` pandas raises for `idxmax`
of an empty series) instead of the claimed default `0`. -/
theorem peak_hour_empty_counterexample :
    filtered_df exDf1 [] [] = [] ∧
    peak_hour (filtered_df exDf1 [] []) = none ∧
    peak_hour (filtered_df exDf1 [] []) ≠ some 0 := by decide

/-- Pointwise products commute under `zipWith`. -/
theorem zipWith_mul_comm :
    ∀ as bs : List Rat, List.zipWith (· * ·) as bs = List.zipWith (· * ·) bs as
  | [], [] => rfl
  | [], _ :: _ => rfl
  | _ :: _, [] => rfl
  | a :: as, b :: bs => by
    simp only [List.zipWith_cons_cons, zipWith_mul_comm as bs, mul_comm a b]

/-- The centred cross-product sum is symmetric in its two series. -/
theorem sxy_comm (xs ys : List Rat) : sxy xs ys = sxy ys xs := by
  unfold sxy
  rw [zipWith_mul_comm]

/-- C3 (amended): the correlation matrix is computed over the six
columns temp, humidity, windspeed, count, casual, registered (the
feels-like temperature `atemp` is not included), each entry is the
pairwise Pearson coefficient over the filtered rows, the matrix is
symmetric, and every diagonal entry whose column has nonzero variance
equals 1. -/
theorem corr_matrix_amended :
    corr_cols = ["temp", "humidity", "windspeed", "count", "casual", "registered"] ∧
    (∀ (df : List EnrichedRecord) (c₁ c₂ : String),
      corrEntry df c₁ c₂ = corrEntry df c₂ c₁) ∧
    (∀ (df : List EnrichedRecord) (c : String),
      0 < sxy (colSeries df c) (colSeries df c) → reprOne (corrEntry df c c)) := by
  refine ⟨rfl, ?_, ?_⟩
  · intro df c₁ c₂
    simp only [corrEntry, corrRep, Prod.mk.injEq]
    exact ⟨sxy_comm _ _, mul_comm _ _⟩
  · intro df c hpos
    refine ⟨hpos, ?_⟩
    show sxy (colSeries df c) (colSeries df c) ^ 2 =
      sxy (colSeries df c) (colSeries df c) * sxy (colSeries df c) (colSeries df c)
    rw [pow_two]

/-- Witness for `corr_matrix_amended` on a concrete table whose
temperature column has nonzero variance. -/
theorem corr_matrix_amended_witness :
    corrEntry exDfTie "temp" "humidity" = corrEntry exDfTie "humidity" "temp" ∧
    reprOne (corrEntry exDfTie "temp" "temp") :=
  ⟨corr_matrix_amended.2.1 exDfTie "temp" "humidity",
   corr_matrix_amended.2.2 exDfTie "temp" (by
    show (0 : Rat) < sxy (colSeries exDfTie "temp") (colSeries exDfTie "temp")
    norm_num [sxy, devs, meanQ, colSeries, colVal, exDfTie, load_and_prep_data,
      enrich, rawRow])⟩

/-- C3 counterexample: the column list handed to `.corr()` has six
entries and does not contain the feels-like temperature column `atemp`,
refuting "exactly the seven fields". -/
theorem corr_cols_counterexample :
    corr_cols.length = 6 ∧ "atemp" ∉ corr_cols := by decide

/-- C4 (amended): on a nonempty filtered subset the heatmap pivot has
all seven day-of-week rows (the categorical `day` grouper is expanded to
all its categories) and one column per hour actually observed in the
subset — not a column for every hour 0..23 — and cells of day-by-hour
combinations with no underlying rows are null (`none`), not zero. -/
theorem heatmap_pivot_amended :
    ∀ df : List EnrichedRecord, df ≠ [] →
      heatmap_rows df = day_order ∧
      day_order.length = 7 ∧
      (∀ h, h ∈ heatmap_cols df ↔ ∃ r ∈ df, r.hour = h) ∧
      (∀ d h, cellRows df d h = [] → heatmap_cell df d h = none) := by
  intro df hne
  have hnonempty : sortedHours df ≠ [] := by
    cases df with
    | nil => exact absurd rfl hne
    | cons r t =>
      intro hcontra
      have hmem : r.hour ∈ sortedHours (r :: t) :=
        (mem_sortedHours _ _).mpr ⟨r, List.mem_cons_self r t, rfl⟩
      rw [hcontra] at hmem
      exact List.not_mem_nil _ hmem
  refine ⟨?_, rfl, ?_, ?_⟩
  · unfold heatmap_rows
    rw [if_neg hnonempty]
  · exact fun h => mem_sortedHours df h
  · intro d h hc
    unfold heatmap_cell
    rw [if_pos hc]

/-- Witness for `heatmap_pivot_amended` on a concrete one-row table:
all seven day rows are present and an unobserved day-by-hour cell is
null. -/
theorem heatmap_pivot_amended_witness :
    heatmap_rows exDf1 = day_order ∧
    heatmap_cell exDf1 "Monday" 3 = none :=
  ⟨(heatmap_pivot_amended exDf1 (by decide)).1,
   (heatmap_pivot_amended exDf1 (by decide)).2.2.2 "Monday" 3 (by decide)⟩

/-- C4 counterexample: at a concrete nonempty filtered subset whose rows
all fall in hour 8 the pivot has exactly one hour column, not all 24. -/
theorem heatmap_cols_counterexample :
    filtered_df exDf1 [2011] ["Spring"] ≠ [] ∧
    heatmap_cols (filtered_df exDf1 [2011] ["Spring"]) = [8] ∧
    (heatmap_cols (filtered_df exDf1 [2011] ["Spring"])).length ≠ 24 := by decide
